import Mathlib

/-!
# Verification of the sn-a2a CLI driver (`main.py`)

Shallow embedding of the OAuth token-refresh helper and of the conversation
driver loop of `main.py`.  Network effects are modelled by oracles: the token
endpoint is a function from the posted URL and form payload to an HTTP
response, and each turn's transport exchanges are a `TurnEnv` record giving
the outcome of the first `send_message` call, of the token refresh (when
invoked), and of the retry `send_message` call (when invoked).  Python
truthiness of optional strings (`None` and `""` are falsy) is modelled by
`truthy`; Python's `str.strip` and `str.lower` are modelled over character
lists so that concrete instances evaluate inside the kernel.
-/

namespace SnA2A

/-- Python truthiness of an optional string: `None` and `""` are falsy. -/
def truthy : Option String → Bool
  | none => false
  | some s => !s.isEmpty

/-- ASCII lowercasing of one character, as Python's `str.lower` acts on the
ASCII inputs used by the CLI. -/
def lowerChar (c : Char) : Char :=
  if c.toNat ≥ 65 ∧ c.toNat ≤ 90 then Char.ofNat (c.toNat + 32) else c

/-- Model of Python's `str.lower`. -/
def pyLower (s : String) : String := String.mk (s.data.map lowerChar)

/-- Model of Python's `str.strip` (drop leading and trailing whitespace). -/
def pyStrip (s : String) : String :=
  String.mk (((s.data.dropWhile Char.isWhitespace).reverse.dropWhile Char.isWhitespace).reverse)

/-- Model of Python's `str.rstrip(c)`: drop every trailing occurrence of `c`. -/
def rstripChar (c : Char) (s : String) : String :=
  String.mk ((s.data.reverse.dropWhile (fun d => d = c)).reverse)

/-! ## Token Manager (`refresh_token`, main.py lines 14-53) -/

/-- The relevant content of the token endpoint's HTTP response:
status code, raw body text, and the `access_token` field of the JSON body
(`none` when the body is not JSON or lacks the field, in which case the
Python code raises while indexing `token_data`). -/
structure HttpResponse where
  statusCode : Nat
  text : String
  accessToken : Option String
  deriving Repr, DecidableEq

/-- `token_url = f"{base_url.rstrip('/')}/oauth_token.do"` (line 31). -/
def tokenUrl (baseUrl : String) : String :=
  rstripChar '/' baseUrl ++ "/oauth_token.do"

/-- The URL-form-encoded POST payload (lines 33-38). -/
def tokenPayload (clientId clientSecret refreshTokenValue : String) : List (String × String) :=
  [("grant_type", "refresh_token"), ("client_id", clientId),
   ("client_secret", clientSecret), ("refresh_token", refreshTokenValue)]

/-- Lines 47-53: non-200 raises an exception carrying status and body;
200 returns the `access_token` field, raising a `KeyError` when absent. -/
def handleTokenResponse (resp : HttpResponse) : Except String String :=
  if resp.statusCode ≠ 200 then
    Except.error ("Failed to refresh token: " ++ toString resp.statusCode ++ " - " ++ resp.text)
  else
    match resp.accessToken with
    | some token => Except.ok token
    | none => Except.error "KeyError: access_token"

/-- `refresh_token` (lines 14-53): posts the payload to the token URL through
the network oracle `net` and interprets the response. -/
def refresh_token (net : String → List (String × String) → HttpResponse)
    (baseUrl clientId clientSecret refreshTokenValue : String) : Except String String :=
  handleTokenResponse (net (tokenUrl baseUrl) (tokenPayload clientId clientSecret refreshTokenValue))

/-! ## Data model of the response envelope (`a2a.types` as used by main.py) -/

/-- One part of a message; `text` is `some` exactly when the part's `root`
exposes a `text` attribute (`hasattr(part.root, "text")`). -/
structure Part where
  text : Option String
  deriving Repr, DecidableEq

/-- A Message-shaped event: an ordered list of parts. -/
structure Msg where
  parts : List Part
  deriving Repr, DecidableEq

/-- A task status: optional `state` string and optional embedded message. -/
structure TaskStatus where
  state : Option String
  message : Option Msg
  deriving Repr, DecidableEq

/-- A Task-shaped event: optional `context_id` and optional `status`. -/
structure Task where
  contextId : Option String
  status : Option TaskStatus
  deriving Repr, DecidableEq

/-- One event yielded by `client.send_message`: a `Message`, a
`(Task, UpdateEvent)` tuple (the update component is unused by the CLI),
or anything else (ignored by the `if`/`elif` chain). -/
inductive Event where
  | message (m : Msg)
  | taskUpdate (t : Task)
  | other
  deriving Repr, DecidableEq

/-! ## Event-stream processing (main.py lines 174-204) -/

/-- Inner loops of lines 180-182 / 187-189: append the `text` of each part
that has one to the accumulated `response_text_parts`. -/
def appendPartTexts (acc : List String) (ps : List Part) : List String :=
  ps.foldl (fun a p => match p.text with | some t => a ++ [t] | none => a) acc

/-- Lines 186-189: texts contributed by a task event, guarded by
`if task.status and task.status.message`. -/
def taskTexts (acc : List String) (t : Task) : List String :=
  match t.status with
  | some st =>
    match st.message with
    | some m => appendPartTexts acc m.parts
    | none => acc
  | none => acc

/-- State of the `async for` loop: `response_text_parts` and the `task`
variable (last task event seen, `none` initially). -/
structure LoopAcc where
  texts : List String
  task : Option Task
  deriving Repr, DecidableEq

/-- Body of the `async for event in client.send_message(message)` loop
(lines 177-189). -/
def processEvent (acc : LoopAcc) (e : Event) : LoopAcc :=
  match e with
  | Event.message m => { acc with texts := appendPartTexts acc.texts m.parts }
  | Event.taskUpdate t => { texts := taskTexts acc.texts t, task := some t }
  | Event.other => acc

/-- The whole `async for` loop starting from `response_text_parts = []`,
`task = None` (lines 174-189). -/
def processEvents (events : List Event) : LoopAcc :=
  events.foldl processEvent { texts := [], task := none }

/-- `getattr(task.status, "state", None) if task.status else None` (line 194). -/
def statusState (t : Task) : Option String :=
  match t.status with
  | some st => st.state
  | none => none

/-- Lines 191-200: keep the old context when no task event arrived; clear it
when the reported state is `"completed"`; otherwise adopt the reported
`context_id` (possibly `none`). -/
def updateContext (ctx : Option String) (task : Option Task) : Option String :=
  match task with
  | none => ctx
  | some t =>
    if statusState t = some "completed" then none else t.contextId

/-- Lines 202-204: `response_text = "\n".join(response_text_parts)` followed by
`print(f"\nAgent: {response_text}\n")`. -/
def agentReplyLine (texts : List String) : String :=
  "\nAgent: " ++ String.intercalate "\n" texts ++ "\n"

/-- Context update and printed reply produced by one successful
`send_message` exchange (the block at lines 174-204, duplicated verbatim at
lines 224-251 for the retry). -/
def exchangeOutcome (ctx : Option String) (events : List Event) : Option String × String :=
  let acc := processEvents events
  (updateContext ctx acc.task, agentReplyLine acc.texts)

/-! ## One turn of the conversation driver (main.py lines 164-258) -/

/-- The outbound message: `create_text_message_object(content=user_input)`
followed by `if context_id: message.context_id = context_id` (lines 165-169). -/
structure OutMessage where
  content : String
  contextId : Option String
  deriving Repr, DecidableEq

/-- `create_text_message_object(content=user_input)`: a fresh message with no
context attached. -/
def create_text_message_object (content : String) : OutMessage :=
  { content := content, contextId := none }

/-- Lines 165-169: attach the tracked context only when it is truthy. -/
def buildMessage (userInput : String) (ctx : Option String) : OutMessage :=
  let m := create_text_message_object userInput
  if truthy ctx then { m with contextId := ctx } else m

/-- The OAuth credentials read from the environment at startup
(`client_id`, `client_secret`, `refresh_token_value`, lines 80-82). -/
structure Creds where
  clientId : Option String
  clientSecret : Option String
  refreshTokenValue : Option String
  deriving Repr, DecidableEq

/-- Outcome of one `client.send_message` call: a completed event stream, an
`httpx.HTTPStatusError` with its status code and printed message, or any
other exception with its printed message. -/
inductive SendResult where
  | ok (events : List Event)
  | httpError (statusCode : Nat) (msg : String)
  | otherError (msg : String)
  deriving Repr, DecidableEq

/-- Oracle for the network effects reachable within one turn: the first
send, the token refresh (consulted only if invoked), and the retry send
(consulted only if invoked). -/
structure TurnEnv where
  firstSend : SendResult
  refreshResult : Except String String
  secondSend : SendResult
  deriving Repr

/-- `e.response.status_code in [401, 403]` (line 208). -/
def isAuthStatus (s : Nat) : Bool := s == 401 || s == 403

/-- Observable result of one turn: the tracked context afterwards, the bearer
token afterwards, the outbound messages passed to `send_message` in order,
how many times `refresh_token` was called, and the printed lines. -/
structure TurnResult where
  context : Option String
  bearer : String
  sentMessages : List OutMessage
  refreshCalls : Nat
  output : List String
  deriving Repr

/-- One iteration of the CLI loop for a non-empty, non-quit `userInput`
(main.py lines 164-258), covering the success path, the 401/403
refresh-and-retry path, and the generic failure paths. -/
def sendTurn (creds : Creds) (env : TurnEnv) (bearer : String) (ctx : Option String)
    (userInput : String) : TurnResult :=
  let message := buildMessage userInput ctx
  match env.firstSend with
  | SendResult.ok events =>
    let r := exchangeOutcome ctx events
    { context := r.1, bearer := bearer, sentMessages := [message], refreshCalls := 0,
      output := [r.2] }
  | SendResult.httpError statusCode errMsg =>
    if isAuthStatus statusCode && truthy creds.refreshTokenValue then
      let authLine := "\nAuth error during communication (status " ++ toString statusCode ++ "), refreshing token..."
      if !(truthy creds.clientId && truthy creds.clientSecret && truthy creds.refreshTokenValue) then
        { context := ctx, bearer := bearer, sentMessages := [message], refreshCalls := 0,
          output := [authLine, "Error: Cannot refresh token - missing OAuth credentials\n"] }
      else
        match env.refreshResult with
        | Except.error e =>
          { context := ctx, bearer := bearer, sentMessages := [message], refreshCalls := 1,
            output := [authLine, "\nError after token refresh: " ++ e ++ "\n"] }
        | Except.ok newToken =>
          let okLine := "Token refreshed successfully! Retrying message...\n"
          match env.secondSend with
          | SendResult.ok events =>
            let r := exchangeOutcome ctx events
            { context := r.1, bearer := newToken, sentMessages := [message, message],
              refreshCalls := 1, output := [authLine, okLine, r.2] }
          | SendResult.httpError _ msg2 =>
            { context := ctx, bearer := newToken, sentMessages := [message, message],
              refreshCalls := 1,
              output := [authLine, okLine, "\nError after token refresh: " ++ msg2 ++ "\n"] }
          | SendResult.otherError msg2 =>
            { context := ctx, bearer := newToken, sentMessages := [message, message],
              refreshCalls := 1,
              output := [authLine, okLine, "\nError after token refresh: " ++ msg2 ++ "\n"] }
    else
      { context := ctx, bearer := bearer, sentMessages := [message], refreshCalls := 0,
        output := ["\nError communicating with agent: " ++ errMsg ++ "\n"] }
  | SendResult.otherError errMsg =>
    { context := ctx, bearer := bearer, sentMessages := [message], refreshCalls := 0,
      output := ["\nError communicating with agent: " ++ errMsg ++ "\n"] }

/-! ## The CLI loop around a turn (main.py lines 141-162) -/

/-- Classification of one raw console line (lines 150-162). -/
inductive InputAction where
  | quit
  | skip
  | send (text : String)
  deriving Repr, DecidableEq

/-- `user_input = input("You: ").strip()`, then the quit check
(`user_input.lower() in ["quit", "exit"]`) and the empty-input check. -/
def classifyInput (raw : String) : InputAction :=
  let userInput := pyStrip raw
  if pyLower userInput = "quit" ∨ pyLower userInput = "exit" then InputAction.quit
  else if userInput = "" then InputAction.skip
  else InputAction.send userInput

/-- Mutable state of the driver loop: the tracked `context_id`, the bearer
token held in the transport's `Authorization` header, and whether the loop
has terminated. -/
structure DriverState where
  context : Option String
  bearer : String
  finished : Bool
  deriving Repr, DecidableEq

/-- `context_id = None` before the loop starts (line 141). -/
def initState (bearer : String) : DriverState :=
  { context := none, bearer := bearer, finished := false }

/-- Observable result of processing one console line. -/
structure StepResult where
  state : DriverState
  sentMessages : List OutMessage
  refreshCalls : Nat
  output : List String
  deriving Repr

/-- One pass of the `while True` loop for one console line (lines 147-258). -/
def driverStep (creds : Creds) (env : TurnEnv) (st : DriverState) (raw : String) : StepResult :=
  match classifyInput raw with
  | InputAction.quit =>
    { state := { st with finished := true }, sentMessages := [], refreshCalls := 0,
      output := ["Goodbye!"] }
  | InputAction.skip =>
    { state := st, sentMessages := [], refreshCalls := 0, output := [] }
  | InputAction.send userInput =>
    let r := sendTurn creds env st.bearer st.context userInput
    { state := { st with context := r.context, bearer := r.bearer },
      sentMessages := r.sentMessages, refreshCalls := r.refreshCalls, output := r.output }

/-! ## Startup configuration handling (main.py lines 62-105) -/

/-- The environment variables read at startup. -/
structure EnvVars where
  baseUrl : Option String
  agentIdVar : Option String
  agentCardPathVar : Option String
  wellKnownPathVar : Option String
  clientId : Option String
  clientSecret : Option String
  refreshTokenValue : Option String
  authToken : Option String
  deriving Repr, DecidableEq

/-- How the startup phase ends: a printed configuration error followed by
`return`; an uncaught `TypeError` from concatenating `None` with a string
(line 75-79); a printed token-refresh error followed by `return`; or
proceeding to the network phase with a bearer token. -/
inductive StartupOutcome where
  | configError (msg : String)
  | typeError
  | refreshFailed (msg : String)
  | proceed (authToken : String)
  deriving Repr, DecidableEq

/-- Startup outcome together with the number of network calls made during
startup (the token refresh is the only possible one before discovery). -/
structure StartupResult where
  outcome : StartupOutcome
  networkCalls : Nat
  deriving Repr, DecidableEq

/-- Lines 62-105 of `main`: agent-id resolution, agent-card path
concatenation (which raises `TypeError` when either path variable is
absent), the required-variable check, and auth-token acquisition.
`refreshOutcome` is the oracle for the startup token refresh. -/
def startup (env : EnvVars) (agentSysId : Option String)
    (refreshOutcome : Except String String) : StartupResult :=
  let agentId := if truthy agentSysId then agentSysId else env.agentIdVar
  if !(truthy agentId) then
    { outcome := StartupOutcome.configError
        "Error: Agent sys_id not provided. Use --agent-id parameter or set A2A_CLIENT_AGENT_ID in .env",
      networkCalls := 0 }
  else
    match env.agentCardPathVar, env.wellKnownPathVar with
    | some cardPathVar, some wellKnownVar =>
      let agentCardPath := cardPathVar ++ agentId.getD "" ++ wellKnownVar
      if !(truthy env.baseUrl && truthy (some agentCardPath)) then
        { outcome := StartupOutcome.configError
            "Error: Missing required environment variables (A2A_CLIENT_BASE_URL, agent card path)",
          networkCalls := 0 }
      else if truthy env.authToken then
        { outcome := StartupOutcome.proceed (env.authToken.getD ""), networkCalls := 0 }
      else if truthy env.clientId && truthy env.clientSecret && truthy env.refreshTokenValue then
        match refreshOutcome with
        | Except.ok token => { outcome := StartupOutcome.proceed token, networkCalls := 1 }
        | Except.error e =>
          { outcome := StartupOutcome.refreshFailed ("Error refreshing token: " ++ e),
            networkCalls := 1 }
      else
        { outcome := StartupOutcome.configError
            "Error: No auth token or refresh credentials provided in .env file",
          networkCalls := 0 }
    | _, _ => { outcome := StartupOutcome.typeError, networkCalls := 0 }

/-! ## Specification-side characterizations -/

/-- Specification-side reading of step 4 of the spec: the texts contributed
by one event are exactly the `text` fields of the parts that expose one, in
part-list order. -/
def eventTexts : Event → List String
  | Event.message m => m.parts.filterMap Part.text
  | Event.taskUpdate t =>
    match t.status with
    | some st =>
      match st.message with
      | some m => m.parts.filterMap Part.text
      | none => []
    | none => []
  | Event.other => []

/-- Fold step tracking the `task` variable: a task event overwrites it,
every other event leaves it alone. -/
def updTask (a : Option Task) (e : Event) : Option Task :=
  match e with
  | Event.taskUpdate t => some t
  | _ => a

/-- The last Task-shaped event of the stream, starting from `o`. -/
def lastTaskFrom (o : Option Task) (events : List Event) : Option Task :=
  events.foldl updTask o

/-- The last Task-shaped event of the stream, if any. -/
def lastTask (events : List Event) : Option Task := lastTaskFrom none events

/-- `e.response.status_code in [401, 403]` lifted to a `SendResult`. -/
def isAuthFailureResult : SendResult → Bool
  | SendResult.httpError s _ => isAuthStatus s
  | _ => false

/-- All three OAuth refresh credentials are available (truthy). -/
def credsAvailable (c : Creds) : Bool :=
  truthy c.clientId && truthy c.clientSecret && truthy c.refreshTokenValue

/-- The refresh oracle reports success. -/
def refreshSucceeds : Except String String → Bool
  | Except.ok _ => true
  | Except.error _ => false

/-! ## Helper lemmas -/

theorem appendPartTexts_eq (ps : List Part) (acc : List String) :
    appendPartTexts acc ps = acc ++ ps.filterMap Part.text := by
  induction ps generalizing acc with
  | nil => simp [appendPartTexts]
  | cons p ps ih =>
    cases hp : p.text with
    | none =>
      have h1 : appendPartTexts acc (p :: ps) = appendPartTexts acc ps := by
        simp [appendPartTexts, hp]
      rw [h1, ih, List.filterMap_cons, hp]
    | some t =>
      have h1 : appendPartTexts acc (p :: ps) = appendPartTexts (acc ++ [t]) ps := by
        simp [appendPartTexts, hp]
      rw [h1, ih, List.filterMap_cons, hp]
      simp

theorem taskTexts_eq (t : Task) (acc : List String) :
    taskTexts acc t = acc ++ eventTexts (Event.taskUpdate t) := by
  obtain ⟨cid, st⟩ := t
  cases st with
  | none => simp [taskTexts, eventTexts]
  | some s =>
    cases hm : s.message with
    | none => simp [taskTexts, eventTexts, hm]
    | some m => simp [taskTexts, eventTexts, hm, appendPartTexts_eq]

theorem foldl_processEvent_texts (events : List Event) (acc : LoopAcc) :
    (events.foldl processEvent acc).texts = acc.texts ++ (events.map eventTexts).flatten := by
  induction events generalizing acc with
  | nil => simp
  | cons e es ih =>
    rw [List.foldl_cons, ih]
    cases e with
    | message m => simp [processEvent, appendPartTexts_eq, eventTexts]
    | taskUpdate t => simp [processEvent, taskTexts_eq]
    | other => simp [processEvent, eventTexts]

theorem foldl_processEvent_task (events : List Event) (acc : LoopAcc) :
    (events.foldl processEvent acc).task = lastTaskFrom acc.task events := by
  induction events generalizing acc with
  | nil => rfl
  | cons e es ih =>
    rw [List.foldl_cons, ih]
    cases e <;> rfl

theorem processEvents_texts (events : List Event) :
    (processEvents events).texts = (events.map eventTexts).flatten := by
  simpa [processEvents] using foldl_processEvent_texts events { texts := [], task := none }

theorem processEvents_task (events : List Event) :
    (processEvents events).task = lastTask events := by
  simpa [processEvents, lastTask] using
    foldl_processEvent_task events { texts := [], task := none }

theorem lastTaskFrom_all_messages (events : List Event) (o : Option Task)
    (h : ∀ e ∈ events, ∃ m, e = Event.message m) : lastTaskFrom o events = o := by
  induction events generalizing o with
  | nil => rfl
  | cons e es ih =>
    obtain ⟨m, rfl⟩ := h e (List.mem_cons_self e es)
    have hes := ih o (fun x hx => h x (List.mem_cons_of_mem _ hx))
    simpa [lastTaskFrom, updTask] using hes

theorem rstripChar_append_slash (baseUrl : String) :
    rstripChar '/' (baseUrl ++ "/") = rstripChar '/' baseUrl := by
  simp [rstripChar, String.data_append]

theorem rstripChar_of_getLast (c : Char) (s : String) (h : s.data.getLast? ≠ some c) :
    rstripChar c s = s := by
  have hrev : s.data.reverse.head? ≠ some c := by
    rwa [List.head?_reverse]
  have hdrop : s.data.reverse.dropWhile (fun d => d = c) = s.data.reverse := by
    cases hr : s.data.reverse with
    | nil => rfl
    | cons a t =>
      rw [hr] at hrev
      have ha : ¬(a = c) := by
        intro hac
        exact hrev (by rw [hac, List.head?_cons])
      simp [List.dropWhile_cons, ha]
  rw [rstripChar, hdrop, List.reverse_reverse]

theorem handleTokenResponse_ok_iff (resp : HttpResponse) (token : String) :
    handleTokenResponse resp = Except.ok token ↔
      resp.statusCode = 200 ∧ resp.accessToken = some token := by
  unfold handleTokenResponse
  by_cases h : resp.statusCode = 200
  · cases ha : resp.accessToken <;> simp [h, ha]
  · simp [h]

/-! ## Claim theorems -/

/-- C4: `refresh_token`, given base_url, client_id, client_secret and
refresh_token, posts to the URL formed by trimming a trailing slash from
base_url and appending the fixed token path `/oauth_token.do`; it returns the
`access_token` field of the JSON body if and only if the HTTP status is 200,
and for every other status it raises an error carrying the status code and
the raw response body. -/
theorem refresh_token_contract_c4 :
    (∀ baseUrl : String, baseUrl.data.getLast? ≠ some '/' →
        tokenUrl baseUrl = baseUrl ++ "/oauth_token.do"
        ∧ tokenUrl (baseUrl ++ "/") = tokenUrl baseUrl)
  ∧ (∀ (net : String → List (String × String) → HttpResponse)
       (baseUrl clientId clientSecret refreshTokenValue token : String),
        refresh_token net baseUrl clientId clientSecret refreshTokenValue = Except.ok token ↔
          (net (tokenUrl baseUrl) (tokenPayload clientId clientSecret refreshTokenValue)).statusCode = 200
          ∧ (net (tokenUrl baseUrl) (tokenPayload clientId clientSecret refreshTokenValue)).accessToken
              = some token)
  ∧ (∀ (net : String → List (String × String) → HttpResponse)
       (baseUrl clientId clientSecret refreshTokenValue : String),
        (net (tokenUrl baseUrl) (tokenPayload clientId clientSecret refreshTokenValue)).statusCode ≠ 200 →
        refresh_token net baseUrl clientId clientSecret refreshTokenValue =
          Except.error ("Failed to refresh token: "
            ++ toString (net (tokenUrl baseUrl)
                (tokenPayload clientId clientSecret refreshTokenValue)).statusCode
            ++ " - "
            ++ (net (tokenUrl baseUrl)
                (tokenPayload clientId clientSecret refreshTokenValue)).text)) := by
  refine ⟨?_, ?_, ?_⟩
  · intro baseUrl h
    constructor
    · rw [tokenUrl, rstripChar_of_getLast '/' baseUrl h]
    · rw [tokenUrl, tokenUrl, rstripChar_append_slash]
  · intro net baseUrl clientId clientSecret refreshTokenValue token
    exact handleTokenResponse_ok_iff _ token
  · intro net baseUrl clientId clientSecret refreshTokenValue h
    rw [refresh_token, handleTokenResponse, if_pos h]

/-- Witness for C4 at a concrete base URL and two concrete token-endpoint
responses (success with a token, and a 401 with a raw body). -/
theorem refresh_token_contract_c4_witness :
    tokenUrl ("https://instance.example" ++ "/") = "https://instance.example" ++ "/oauth_token.do"
  ∧ refresh_token (fun _ _ => { statusCode := 200, text := "", accessToken := some "tok123" })
      "https://instance.example" "cid" "csec" "rtok" = Except.ok "tok123"
  ∧ refresh_token (fun _ _ => { statusCode := 401, text := "denied", accessToken := none })
      "https://instance.example" "cid" "csec" "rtok" =
      Except.error ("Failed to refresh token: " ++ toString (401 : Nat) ++ " - " ++ "denied") := by
  refine ⟨?_, ?_, ?_⟩
  · have h := refresh_token_contract_c4.1 "https://instance.example" (by decide)
    rw [h.2, h.1]
  · exact (refresh_token_contract_c4.2.1
      (fun _ _ => { statusCode := 200, text := "", accessToken := some "tok123" })
      "https://instance.example" "cid" "csec" "rtok" "tok123").mpr ⟨rfl, rfl⟩
  · exact refresh_token_contract_c4.2.2
      (fun _ _ => { statusCode := 401, text := "denied", accessToken := none })
      "https://instance.example" "cid" "csec" "rtok" (by decide)

/-- C8 (code bug): with `A2A_CLIENT_BASE_URL` absent, an agent id present, and
the agent-card path variable also absent, `main` does not print a
configuration error: line 75 evaluates `os.getenv("A2A_CLIENT_AGENT_CARD_PATH")
+ agent_id` before the line 85 configuration check, so the run dies with an
uncaught `TypeError` (still before any network call). -/
theorem missing_base_url_c8_bug :
    startup
      { baseUrl := none, agentIdVar := some "agent1", agentCardPathVar := none,
        wellKnownPathVar := some "/card.json", clientId := none, clientSecret := none,
        refreshTokenValue := none, authToken := none }
      none (Except.ok "tok") =
      { outcome := StartupOutcome.typeError, networkCalls := 0 } := by
  decide

/-- C9: any input whose trimmed form is `"quit"` or `"exit"` in any letter
case terminates the loop, and no transport send call is made for it. -/
theorem quit_terminates_c9 (creds : Creds) (env : TurnEnv) (st : DriverState) (raw : String)
    (h : pyLower (pyStrip raw) = "quit" ∨ pyLower (pyStrip raw) = "exit") :
    (driverStep creds env st raw).state.finished = true
  ∧ (driverStep creds env st raw).sentMessages = [] := by
  have hc : classifyInput raw = InputAction.quit := by
    show (if pyLower (pyStrip raw) = "quit" ∨ pyLower (pyStrip raw) = "exit" then InputAction.quit
          else if pyStrip raw = "" then InputAction.skip
          else InputAction.send (pyStrip raw)) = InputAction.quit
    rw [if_pos h]
  simp [driverStep, hc]

/-- Witness for C9 on the mixed-case, padded input `" QuIt "`. -/
theorem quit_terminates_c9_witness :
    (driverStep { clientId := none, clientSecret := none, refreshTokenValue := none }
       { firstSend := SendResult.ok [], refreshResult := Except.ok "t", secondSend := SendResult.ok [] }
       (initState "b") " QuIt ").state.finished = true := by
  exact (quit_terminates_c9
    { clientId := none, clientSecret := none, refreshTokenValue := none }
    { firstSend := SendResult.ok [], refreshResult := Except.ok "t", secondSend := SendResult.ok [] }
    (initState "b") " QuIt " (Or.inl (by decide))).1

/-- C10: any input that is empty after trimming produces no transport send
call and leaves the conversation context identifier unchanged. -/
theorem empty_input_c10 (creds : Creds) (env : TurnEnv) (st : DriverState) (raw : String)
    (h : pyStrip raw = "") :
    (driverStep creds env st raw).sentMessages = []
  ∧ (driverStep creds env st raw).state.context = st.context := by
  have hc : classifyInput raw = InputAction.skip := by
    show (if pyLower (pyStrip raw) = "quit" ∨ pyLower (pyStrip raw) = "exit" then InputAction.quit
          else if pyStrip raw = "" then InputAction.skip
          else InputAction.send (pyStrip raw)) = InputAction.skip
    rw [h]
    decide
  simp [driverStep, hc]

/-- Witness for C10 on a whitespace-only input. -/
theorem empty_input_c10_witness :
    (driverStep { clientId := none, clientSecret := none, refreshTokenValue := none }
       { firstSend := SendResult.ok [], refreshResult := Except.ok "t", secondSend := SendResult.ok [] }
       (initState "b") "   ").sentMessages = [] := by
  exact (empty_input_c10
    { clientId := none, clientSecret := none, refreshTokenValue := none }
    { firstSend := SendResult.ok [], refreshResult := Except.ok "t", secondSend := SendResult.ok [] }
    (initState "b") "   " (by decide)).1

/-- C1: the conversation context identifier is `none` before the first turn;
after any turn that completes a network exchange (first send or retry send)
and reports a task whose status state is `"completed"`, the context is `none`
regardless of the reported identifier; after any other such turn the context
equals the remote-reported `context_id` of the (last) task, which may itself
be `none`. -/
theorem context_lifecycle_c1 :
    (∀ bearer : String, (initState bearer).context = none)
  ∧ (∀ (creds : Creds) (env : TurnEnv) (bearer : String) (ctx : Option String)
       (userInput : String) (events : List Event) (t : Task),
      env.firstSend = SendResult.ok events → lastTask events = some t →
      (sendTurn creds env bearer ctx userInput).context =
        if statusState t = some "completed" then none else t.contextId)
  ∧ (∀ (creds : Creds) (env : TurnEnv) (bearer : String) (ctx : Option String)
       (userInput : String) (statusCode : Nat) (errMsg newToken : String)
       (events : List Event) (t : Task),
      env.firstSend = SendResult.httpError statusCode errMsg →
      isAuthStatus statusCode = true → credsAvailable creds = true →
      env.refreshResult = Except.ok newToken →
      env.secondSend = SendResult.ok events → lastTask events = some t →
      (sendTurn creds env bearer ctx userInput).context =
        if statusState t = some "completed" then none else t.contextId) := by
  refine ⟨fun _ => rfl, ?_, ?_⟩
  · intro creds env bearer ctx userInput events t hOk hLast
    obtain ⟨fs, rr, ss⟩ := env
    subst hOk
    simp [sendTurn, exchangeOutcome, updateContext, processEvents_task, hLast]
  · intro creds env bearer ctx userInput statusCode errMsg newToken events t hFS hAuth hCreds hRR hSS hLast
    obtain ⟨cid, cs, rtv⟩ := creds
    obtain ⟨fs, rr, ss⟩ := env
    subst hFS
    subst hRR
    subst hSS
    simp only [credsAvailable, Bool.and_eq_true] at hCreds
    obtain ⟨⟨h1, h2⟩, h3⟩ := hCreds
    simp [sendTurn, hAuth, h1, h2, h3, exchangeOutcome, updateContext, processEvents_task, hLast]

/-- Witness for C1: a turn reporting a completed task with a non-null
context identifier clears the context. -/
theorem context_lifecycle_c1_witness :
    (sendTurn { clientId := none, clientSecret := none, refreshTokenValue := none }
       { firstSend := SendResult.ok
           [Event.taskUpdate { contextId := some "ctx9",
                               status := some { state := some "completed", message := none } }],
         refreshResult := Except.ok "t", secondSend := SendResult.ok [] }
       "b" (some "old") "hi").context = none := by
  have h := context_lifecycle_c1.2.1
    { clientId := none, clientSecret := none, refreshTokenValue := none }
    { firstSend := SendResult.ok
        [Event.taskUpdate { contextId := some "ctx9",
                            status := some { state := some "completed", message := none } }],
      refreshResult := Except.ok "t", secondSend := SendResult.ok [] }
    "b" (some "old") "hi"
    [Event.taskUpdate { contextId := some "ctx9",
                        status := some { state := some "completed", message := none } }]
    { contextId := some "ctx9", status := some { state := some "completed", message := none } }
    rfl rfl
  rw [h]
  decide

/-- C5: for a completed exchange, the displayed reply is the concatenation,
with newline separators, of the `text` of exactly those parts that expose a
text attribute, in the order the parts appear in the event stream's part
lists; parts without a text attribute are skipped (the extraction is total,
so they can never raise). -/
theorem reply_text_c5 (creds : Creds) (env : TurnEnv) (bearer : String) (ctx : Option String)
    (userInput : String) (events : List Event)
    (h : env.firstSend = SendResult.ok events) :
    (sendTurn creds env bearer ctx userInput).output =
      ["\nAgent: " ++ String.intercalate "\n" ((events.map eventTexts).flatten) ++ "\n"] := by
  obtain ⟨fs, rr, ss⟩ := env
  subst h
  simp [sendTurn, exchangeOutcome, agentReplyLine, processEvents_texts]

/-- Witness for C5: a message whose middle part has no text attribute is
silently skipped and the remaining texts are joined with a newline. -/
theorem reply_text_c5_witness :
    (sendTurn { clientId := none, clientSecret := none, refreshTokenValue := none }
       { firstSend := SendResult.ok
           [Event.message { parts := [{ text := some "A" }, { text := none }, { text := some "B" }] }],
         refreshResult := Except.ok "t", secondSend := SendResult.ok [] }
       "b" none "hi").output = ["\nAgent: A\nB\n"] := by
  have h := reply_text_c5
    { clientId := none, clientSecret := none, refreshTokenValue := none }
    { firstSend := SendResult.ok
        [Event.message { parts := [{ text := some "A" }, { text := none }, { text := some "B" }] }],
      refreshResult := Except.ok "t", secondSend := SendResult.ok [] }
    "b" none "hi"
    [Event.message { parts := [{ text := some "A" }, { text := none }, { text := some "B" }] }]
    rfl
  rw [h]
  decide

/-- C6: a turn whose successful exchange yields only Message-shaped events
(no Task-shaped event) leaves the conversation context identifier unchanged. -/
theorem message_only_context_c6 (creds : Creds) (env : TurnEnv) (bearer : String)
    (ctx : Option String) (userInput : String) (events : List Event)
    (hOk : env.firstSend = SendResult.ok events)
    (hMsg : ∀ e ∈ events, ∃ m, e = Event.message m) :
    (sendTurn creds env bearer ctx userInput).context = ctx := by
  obtain ⟨fs, rr, ss⟩ := env
  subst hOk
  have hLast : lastTask events = none := lastTaskFrom_all_messages events none hMsg
  simp [sendTurn, exchangeOutcome, updateContext, processEvents_task, hLast]

/-- Witness for C6: a message-only exchange keeps the previous context. -/
theorem message_only_context_c6_witness :
    (sendTurn { clientId := none, clientSecret := none, refreshTokenValue := none }
       { firstSend := SendResult.ok [Event.message { parts := [{ text := some "hi" }] }],
         refreshResult := Except.ok "t", secondSend := SendResult.ok [] }
       "b" (some "keep") "q").context = some "keep" := by
  exact message_only_context_c6
    { clientId := none, clientSecret := none, refreshTokenValue := none }
    { firstSend := SendResult.ok [Event.message { parts := [{ text := some "hi" }] }],
      refreshResult := Except.ok "t", secondSend := SendResult.ok [] }
    "b" (some "keep") "q"
    [Event.message { parts := [{ text := some "hi" }] }]
    rfl
    (by
      intro e he
      rw [List.mem_singleton] at he
      exact ⟨_, he⟩)

/-- C7: within a turn whose exchange yields several events, text fragments
are accumulated from every event in stream order, while the new context (and
the completion state it is derived from) is determined solely by the last
Task-shaped event of the stream. -/
theorem multi_task_c7 (creds : Creds) (env : TurnEnv) (bearer : String) (ctx : Option String)
    (userInput : String) (events : List Event)
    (hOk : env.firstSend = SendResult.ok events) :
    (sendTurn creds env bearer ctx userInput).output =
      ["\nAgent: " ++ String.intercalate "\n" ((events.map eventTexts).flatten) ++ "\n"]
  ∧ (sendTurn creds env bearer ctx userInput).context = updateContext ctx (lastTask events) := by
  obtain ⟨fs, rr, ss⟩ := env
  subst hOk
  constructor
  · simp [sendTurn, exchangeOutcome, agentReplyLine, processEvents_texts]
  · simp [sendTurn, exchangeOutcome, processEvents_task]

/-- First witness task event for C7: a non-completed task carrying context
`"c1"` and the text fragment `"one"`. -/
def taskEventA : Event :=
  Event.taskUpdate { contextId := some "c1", status := some { state := some "working", message := some { parts := [{ text := some "one" }] } } }

/-- Second witness task event for C7: a non-completed task carrying context
`"c2"` and the text fragment `"two"`. -/
def taskEventB : Event :=
  Event.taskUpdate { contextId := some "c2", status := some { state := some "working", message := some { parts := [{ text := some "two" }] } } }

/-- Witness turn environment for C7: the first send yields the two task
events above. -/
def envC7 : TurnEnv :=
  { firstSend := SendResult.ok [taskEventA, taskEventB], refreshResult := Except.ok "t", secondSend := SendResult.ok [] }

/-- Witness for C7: two non-completed task events; the reply concatenates
both fragments in order, and the context comes from the second task only. -/
theorem multi_task_c7_witness :
    (sendTurn { clientId := none, clientSecret := none, refreshTokenValue := none }
       envC7 "b" (some "old") "hi").output = ["\nAgent: one\ntwo\n"]
  ∧ (sendTurn { clientId := none, clientSecret := none, refreshTokenValue := none }
       envC7 "b" (some "old") "hi").context = some "c2" := by
  have h := multi_task_c7
    { clientId := none, clientSecret := none, refreshTokenValue := none }
    envC7 "b" (some "old") "hi" [taskEventA, taskEventB] rfl
  constructor
  · rw [h.1]
    decide
  · rw [h.2]
    decide

/-- C2 counterexample: a non-empty, non-quit input (`"hello"`) whose first
send fails with HTTP 401 while no refresh credentials are configured.  The
claim demands exactly two transport send calls; the code makes only one,
because the retry branch at line 208 is guarded by `refresh_token_value`. -/
theorem send_call_count_c2_counterexample :
    (driverStep { clientId := none, clientSecret := none, refreshTokenValue := none }
       { firstSend := SendResult.httpError 401 "Unauthorized", refreshResult := Except.ok "tok2",
         secondSend := SendResult.ok [] }
       (initState "b") "hello").sentMessages.length = 1
  ∧ ¬ (driverStep { clientId := none, clientSecret := none, refreshTokenValue := none }
       { firstSend := SendResult.httpError 401 "Unauthorized", refreshResult := Except.ok "tok2",
         secondSend := SendResult.ok [] }
       (initState "b") "hello").sentMessages.length = 2 := by
  decide

/-- C2 as amended: for every non-empty, non-quit input the turn makes
exactly one transport send call, unless the first call fails with HTTP 401
or 403, all three OAuth refresh credentials are available, and the token
refresh succeeds — in which case exactly two send calls are made (the
original and one retry). -/
theorem send_call_count_c2 (creds : Creds) (env : TurnEnv) (bearer : String)
    (ctx : Option String) (userInput : String) :
    (sendTurn creds env bearer ctx userInput).sentMessages.length =
      if isAuthFailureResult env.firstSend && credsAvailable creds
          && refreshSucceeds env.refreshResult then 2 else 1 := by
  obtain ⟨cid, cs, rtv⟩ := creds
  obtain ⟨fs, rr, ss⟩ := env
  cases fs with
  | ok events => simp [sendTurn, isAuthFailureResult]
  | otherError m => simp [sendTurn, isAuthFailureResult]
  | httpError s m =>
    cases hA : isAuthStatus s <;>
    cases hcid : truthy cid <;>
    cases hcs : truthy cs <;>
    cases hrtv : truthy rtv <;>
    cases rr <;>
    cases ss <;>
    simp [sendTurn, isAuthFailureResult, credsAvailable, refreshSucceeds, hA, hcid, hcs, hrtv]

/-- C3: when a send fails with HTTP 401/403 and all refresh credentials are
available, the driver calls the token refresh exactly once; if the refresh
yields a new token, the transport's bearer credential becomes that token and
the same outbound message is sent exactly once more, any failure of that
retry being printed (the surrounding handler keeps the loop alive); if the
refresh itself fails, that failure of the retry sequence is printed and no
second send happens.  A failure with any other HTTP status is printed
immediately, with no refresh and no retry. -/
theorem auth_retry_c3 (creds : Creds) (env : TurnEnv) (bearer : String) (ctx : Option String)
    (userInput : String) (statusCode : Nat) (errMsg : String)
    (hCreds : credsAvailable creds = true) :
    (env.firstSend = SendResult.httpError statusCode errMsg → isAuthStatus statusCode = true →
       (sendTurn creds env bearer ctx userInput).refreshCalls = 1
       ∧ (∀ newToken, env.refreshResult = Except.ok newToken →
            (sendTurn creds env bearer ctx userInput).bearer = newToken
            ∧ (sendTurn creds env bearer ctx userInput).sentMessages
                = [buildMessage userInput ctx, buildMessage userInput ctx]
            ∧ (∀ statusCode2 msg2, env.secondSend = SendResult.httpError statusCode2 msg2 →
                 ("\nError after token refresh: " ++ msg2 ++ "\n")
                   ∈ (sendTurn creds env bearer ctx userInput).output)
            ∧ (∀ msg2, env.secondSend = SendResult.otherError msg2 →
                 ("\nError after token refresh: " ++ msg2 ++ "\n")
                   ∈ (sendTurn creds env bearer ctx userInput).output))
       ∧ (∀ e, env.refreshResult = Except.error e →
            ("\nError after token refresh: " ++ e ++ "\n")
              ∈ (sendTurn creds env bearer ctx userInput).output
            ∧ (sendTurn creds env bearer ctx userInput).sentMessages
                = [buildMessage userInput ctx]))
  ∧ (env.firstSend = SendResult.httpError statusCode errMsg → isAuthStatus statusCode = false →
       (sendTurn creds env bearer ctx userInput).refreshCalls = 0
       ∧ (sendTurn creds env bearer ctx userInput).sentMessages = [buildMessage userInput ctx]
       ∧ ("\nError communicating with agent: " ++ errMsg ++ "\n")
           ∈ (sendTurn creds env bearer ctx userInput).output) := by
  obtain ⟨cid, cs, rtv⟩ := creds
  obtain ⟨fs, rr, ss⟩ := env
  simp only [credsAvailable, Bool.and_eq_true] at hCreds
  obtain ⟨⟨h1, h2⟩, h3⟩ := hCreds
  constructor
  · intro hFS hAuth
    subst hFS
    refine ⟨?_, ?_, ?_⟩
    · cases rr with
      | ok tok => cases ss <;> simp [sendTurn, hAuth, h1, h2, h3]
      | error e => simp [sendTurn, hAuth, h1, h2, h3]
    · intro newToken hRR
      subst hRR
      refine ⟨?_, ?_, ?_, ?_⟩
      · cases ss <;> simp [sendTurn, hAuth, h1, h2, h3]
      · cases ss <;> simp [sendTurn, hAuth, h1, h2, h3]
      · intro statusCode2 msg2 hSS
        subst hSS
        simp [sendTurn, hAuth, h1, h2, h3]
      · intro msg2 hSS
        subst hSS
        simp [sendTurn, hAuth, h1, h2, h3]
    · intro e hRR
      subst hRR
      simp [sendTurn, hAuth, h1, h2, h3]
  · intro hFS hAuth
    subst hFS
    simp [sendTurn, hAuth]

/-- Witness for C3: a 401 on the first send with full credentials and a
failing retry: the refresh runs once and the retry failure is printed. -/
theorem auth_retry_c3_witness :
    (sendTurn { clientId := some "cid", clientSecret := some "csec", refreshTokenValue := some "rtok" }
       { firstSend := SendResult.httpError 401 "unauthorized", refreshResult := Except.ok "tok2",
         secondSend := SendResult.httpError 500 "boom" }
       "tok1" none "hello").refreshCalls = 1
  ∧ ("\nError after token refresh: " ++ "boom" ++ "\n")
      ∈ (sendTurn { clientId := some "cid", clientSecret := some "csec", refreshTokenValue := some "rtok" }
          { firstSend := SendResult.httpError 401 "unauthorized", refreshResult := Except.ok "tok2",
            secondSend := SendResult.httpError 500 "boom" }
          "tok1" none "hello").output := by
  have h := auth_retry_c3
    { clientId := some "cid", clientSecret := some "csec", refreshTokenValue := some "rtok" }
    { firstSend := SendResult.httpError 401 "unauthorized", refreshResult := Except.ok "tok2",
      secondSend := SendResult.httpError 500 "boom" }
    "tok1" none "hello" 401 "unauthorized" (by decide)
  have h1 := h.1 rfl (by decide)
  exact ⟨h1.1, (h1.2.1 "tok2" rfl).2.2.1 500 "boom" rfl⟩

end SnA2A
